import Mathlib

/-!
Verification of the decision-support analytics core of the urban-monitoring
backend: risk scoring (`app/modules/analytics/risk.py`), statistical anomaly
detection (`app/modules/analytics/anomaly.py`), metric forecasting
(`app/modules/ml/core.py`, `app/modules/analytics/forecaster.py`), alert
generation (`app/modules/alerts/generator.py`) and scenario simulation
(`app/modules/scenario/engine.py`).

Modelling conventions:
* Python floats are modelled as exact rationals (`ℚ`); `round(x, n)` is
  modelled as exact decimal round-half-even (`pyRound`).
* Timestamps are rationals counting hours on a single timeline; time-range
  query filters (for example last 6 hours) become explicit comparisons
  against a `now` parameter.
* Database query results arrive as lists, ordered the way the embedded code
  orders them (descending by timestamp unless noted).
* `statistics.stdev` returns the nonnegative square root of the sample
  variance, which is irrational in general; functions that consume it take
  the standard deviation as an explicit argument constrained by
  `IsSampleStdev`.
* Nullable columns become `Option ℚ`; non-nullable columns (for example
  `TrafficData.density_percent`) are plain `ℚ`.
-/

namespace UrbanCore

/-- Arithmetic mean of a list of rationals (the embedded code never calls it
on an empty list; on `[]` the `ℚ` division convention yields 0). -/
def listMean (xs : List ℚ) : ℚ := xs.sum / xs.length

/-- Sample variance with Bessel correction: the square of `statistics.stdev`. -/
def sampleVariance (xs : List ℚ) : ℚ :=
  (xs.map (fun x => (x - listMean xs) ^ 2)).sum / ((xs.length : ℚ) - 1)

/-- Population variance: what `numpy.var` computes. -/
def populationVariance (xs : List ℚ) : ℚ :=
  (xs.map (fun x => (x - listMean xs) ^ 2)).sum / (xs.length : ℚ)

/-- The value `s` is the standard deviation `statistics.stdev xs`: the
nonnegative square root of the sample variance. -/
def IsSampleStdev (xs : List ℚ) (s : ℚ) : Prop := 0 ≤ s ∧ s ^ 2 = sampleVariance xs

instance (xs : List ℚ) (s : ℚ) : Decidable (IsSampleStdev xs s) := by
  unfold IsSampleStdev; infer_instance

/-- Round to the nearest integer, ties to even: the rounding mode of Python
round on exact values. -/
def roundHalfEven (q : ℚ) : ℤ :=
  let f := ⌊q⌋
  let r := q - (f : ℚ)
  if r < 1/2 then f
  else if 1/2 < r then f + 1
  else if f % 2 = 0 then f else f + 1

/-- Python round(q, n) modelled over exact rationals. -/
def pyRound (q : ℚ) (n : ℕ) : ℚ :=
  ((roundHalfEven (q * 10 ^ n) : ℚ)) / 10 ^ n

/-- A rational with an exact representation at the target precision is left
unchanged by pyRound. -/
theorem pyRound_eq_self (q : ℚ) (n : ℕ) (k : ℤ) (hk : q * 10 ^ n = (k : ℚ)) :
    pyRound q n = q := by
  unfold pyRound roundHalfEven
  rw [hk]
  have hfloor : ⌊(k : ℚ)⌋ = k := Int.floor_intCast k
  simp only [hfloor]
  have hz : (k : ℚ) - (k : ℚ) = 0 := by ring
  rw [hz]
  norm_num
  have hpow : ((10 : ℚ) ^ n) ≠ 0 := by positivity
  field_simp
  linarith [hk]

/-! ## Data rows (app/models.py)

One structure per table used by the analytics core.  `timestampStr` carries
the strftime rendering used inside explanation strings. -/

/-- One environment_data row; `timestampHours` is the elapsed-hours position
used by the forecaster. -/
structure EnvironmentData where
  timestampHours : ℚ
  timestampStr : String
  aqi : Option ℚ
  pm25 : Option ℚ
  temperature : Option ℚ
  rainfall : Option ℚ
deriving DecidableEq

/-- One traffic_data row; density_percent is non-nullable in the schema. -/
structure TrafficData where
  timestampHours : ℚ
  timestampStr : String
  zone : String
  densityPercent : ℚ
  congestionLevel : String
deriving DecidableEq

/-- One service_data row. -/
structure ServiceData where
  timestampHours : ℚ
  timestampStr : String
  waterSupplyStress : Option ℚ
  wasteCollectionEff : Option ℚ
  powerOutageCount : Option ℚ
deriving DecidableEq

/-- One anomalies row. -/
structure AnomalyRow where
  id : String
  city : String
  metricType : String
  value : ℚ
  expectedValue : ℚ
  deviation : ℚ
  severity : String
  detectedAt : ℚ
  resolved : Bool
deriving DecidableEq

/-! ## RiskScorer (app/modules/analytics/risk.py) -/

/-- RiskScorer.WEIGHTS, key environment. -/
def WEIGHTS_environment : ℚ := 0.35

/-- RiskScorer.WEIGHTS, key traffic. -/
def WEIGHTS_traffic : ℚ := 0.25

/-- RiskScorer.WEIGHTS, key services. -/
def WEIGHTS_services : ℚ := 0.25

/-- RiskScorer.WEIGHTS, key anomalies. -/
def WEIGHTS_anomalies : ℚ := 0.15

/-- RiskScorer.HIGH_RISK_THRESHOLD. -/
def HIGH_RISK_THRESHOLD : ℚ := 0.7

/-- RiskScorer.MEDIUM_RISK_THRESHOLD. -/
def MEDIUM_RISK_THRESHOLD : ℚ := 0.4

/-- One entry of RiskScorer.METRIC_RANGES. -/
structure MetricRange where
  lo : ℚ
  hi : ℚ
  lowerWorse : Bool
deriving DecidableEq

/-- RiskScorer.METRIC_RANGES as a partial map from metric name. -/
def METRIC_RANGES : String → Option MetricRange
  | "aqi" => some ⟨0, 500, false⟩
  | "pm25" => some ⟨0, 500, false⟩
  | "water_stress" => some ⟨0, 1, false⟩
  | "power_load" => some ⟨0, 100, false⟩
  | "traffic_density" => some ⟨0, 100, false⟩
  | "avg_speed" => some ⟨0, 100, true⟩
  | _ => none

/-- RiskScorer._normalize_metric: clamp the linear normalisation into [0,1],
inverting when lower is worse; unknown metric gives 0.5. -/
def normalize_metric (name : String) (value : ℚ) : ℚ :=
  match METRIC_RANGES name with
  | none => 0.5
  | some cfg =>
    let normalized := (value - cfg.lo) / (cfg.hi - cfg.lo)
    let clamped := max 0 (min 1 normalized)
    if cfg.lowerWorse then 1 - clamped else clamped

/-- One contributing-factor entry of a risk component. -/
structure RiskFactor where
  metric : String
  value : ℚ
  riskContribution : ℚ
  status : String
deriving DecidableEq

/-- Result of one of the environment / traffic / services component scorers. -/
structure RiskComponent where
  score : ℚ
  factors : List RiskFactor
  explanation : String
deriving DecidableEq

/-- RiskScorer._calculate_environment_risk over the query result (latest
row first). -/
def calculate_environment_risk (envData : List EnvironmentData) : RiskComponent :=
  match envData.head? with
  | none => { score := 0.5, factors := [], explanation := "No recent data available" }
  | some latest =>
    let aqiScores : List ℚ :=
      match latest.aqi with
      | some v => [normalize_metric "aqi" v]
      | none => []
    let aqiFactors : List RiskFactor :=
      match latest.aqi with
      | some v => [{ metric := "AQI", value := v,
                     riskContribution := pyRound (normalize_metric "aqi" v) 2,
                     status := if v > 150 then "unhealthy"
                               else if v > 100 then "moderate" else "good" }]
      | none => []
    let pmScores : List ℚ :=
      match latest.pm25 with
      | some v => [normalize_metric "pm25" v]
      | none => []
    let pmFactors : List RiskFactor :=
      match latest.pm25 with
      | some v => [{ metric := "PM2.5", value := v,
                     riskContribution := pyRound (normalize_metric "pm25" v) 2,
                     status := if v > 60 then "high"
                               else if v > 35 then "moderate" else "low" }]
      | none => []
    let scores := aqiScores ++ pmScores
    let factors := aqiFactors ++ pmFactors
    let avgScore : ℚ := if scores = [] then 0.5 else listMean scores
    { score := pyRound avgScore 3, factors := factors,
      explanation := "Based on " ++ toString factors.length ++
        " environmental metrics from " ++ latest.timestampStr }

/-- RiskScorer._calculate_traffic_risk over the query result (latest rows
first; the source limits the query to 10 rows and scores the first 3).  The
is-not-None guard on density_percent in the source is vacuous because the
column is non-nullable. -/
def calculate_traffic_risk (trafficData : List TrafficData) : RiskComponent :=
  let latestTraffic := trafficData.take 10
  match latestTraffic.head? with
  | none => { score := 0.5, factors := [], explanation := "No recent data available" }
  | some first =>
    let top3 := latestTraffic.take 3
    let scores := top3.map (fun (t : TrafficData) =>
      normalize_metric "traffic_density" t.densityPercent)
    let factors := top3.map (fun (t : TrafficData) =>
      ({ metric := "Traffic Density Zone " ++ t.zone, value := t.densityPercent,
         riskContribution := pyRound (normalize_metric "traffic_density" t.densityPercent) 2,
         status := if t.densityPercent > 70 then "congested"
                   else if t.densityPercent > 50 then "moderate" else "smooth" } : RiskFactor))
    let avgScore : ℚ := if scores = [] then 0.5 else listMean scores
    { score := pyRound avgScore 3, factors := factors,
      explanation := "Based on traffic in " ++ toString factors.length ++
        " zones, latest data from " ++ first.timestampStr }

/-- RiskScorer._calculate_services_risk over the query result (latest row
first). -/
def calculate_services_risk (serviceData : List ServiceData) : RiskComponent :=
  match serviceData.head? with
  | none => { score := 0.5, factors := [], explanation := "No recent data available" }
  | some latest =>
    let waterScores : List ℚ :=
      match latest.waterSupplyStress with
      | some v => [normalize_metric "water_stress" v]
      | none => []
    let waterFactors : List RiskFactor :=
      match latest.waterSupplyStress with
      | some v => [{ metric := "Water Stress", value := v,
                     riskContribution := pyRound (normalize_metric "water_stress" v) 2,
                     status := if v > 0.7 then "critical"
                               else if v > 0.4 then "stressed" else "adequate" }]
      | none => []
    let powerScores : List ℚ :=
      match latest.powerOutageCount with
      | some v => [normalize_metric "power_load" v]
      | none => []
    let powerFactors : List RiskFactor :=
      match latest.powerOutageCount with
      | some v => [{ metric := "Power Outage Count", value := v,
                     riskContribution := pyRound (normalize_metric "power_load" v) 2,
                     status := if v > 10 then "overloaded"
                               else if v > 5 then "stressed" else "normal" }]
      | none => []
    let scores := waterScores ++ powerScores
    let factors := waterFactors ++ powerFactors
    let avgScore : ℚ := if scores = [] then 0.5 else listMean scores
    { score := pyRound avgScore 3, factors := factors,
      explanation := "Based on " ++ toString factors.length ++
        " service metrics from " ++ latest.timestampStr }

/-- Result of RiskScorer._calculate_anomaly_risk. -/
structure AnomalyRiskComponent where
  score : ℚ
  count : ℕ
  highCount : ℕ
  mediumCount : ℕ
  lowCount : ℕ
  explanation : String
deriving DecidableEq

/-- RiskScorer._calculate_anomaly_risk: unresolved anomalies detected within
the last 7 days (168 hours) of `now`, scored by severity counts. -/
def calculate_anomaly_risk (anomalies : List AnomalyRow) (cityName : String)
    (now : ℚ) : AnomalyRiskComponent :=
  let recent := anomalies.filter (fun a =>
    decide (a.city = cityName) && decide (now - 168 ≤ a.detectedAt) && !a.resolved)
  if recent.isEmpty then
    { score := 0, count := 0, highCount := 0, mediumCount := 0, lowCount := 0,
      explanation := "No unresolved anomalies in the last 7 days" }
  else
    let highCount := (recent.filter (fun a => decide (a.severity = "high"))).length
    let mediumCount := (recent.filter (fun a => decide (a.severity = "medium"))).length
    let lowCount := (recent.filter (fun a => decide (a.severity = "low"))).length
    let anomalyScore : ℚ :=
      min 1 ((highCount : ℚ) * 0.3 + (mediumCount : ℚ) * 0.15 + (lowCount : ℚ) * 0.05)
    { score := pyRound anomalyScore 3, count := recent.length,
      highCount := highCount, mediumCount := mediumCount, lowCount := lowCount,
      explanation := toString recent.length ++ " unresolved anomalies: " ++
        toString highCount ++ " high, " ++ toString mediumCount ++ " medium, " ++
        toString lowCount ++ " low" }

/-- RiskScorer.determine_level. -/
def determine_level (score : ℚ) : String :=
  if score ≥ HIGH_RISK_THRESHOLD then "high"
  else if score ≥ MEDIUM_RISK_THRESHOLD then "medium"
  else "low"

/-- The weighted overall score of RiskScorer.calculate_city_risk (lines 78
to 83 of risk.py). -/
def compositeScore (env traffic services anomalies : ℚ) : ℚ :=
  env * WEIGHTS_environment + traffic * WEIGHTS_traffic +
    services * WEIGHTS_services + anomalies * WEIGHTS_anomalies

/-- The returned payload of RiskScorer.calculate_city_risk. -/
structure CityRiskResult where
  overallScore : ℚ
  riskLevel : String
  environment : RiskComponent
  traffic : RiskComponent
  services : RiskComponent
  anomalies : AnomalyRiskComponent
deriving DecidableEq

/-- RiskScorer.calculate_city_risk: the unknown-city branch returns the
error payload, otherwise the four component scorers feed the weighted
composite.  The RiskScore.create persistence side effect carries no
information beyond the returned payload and is omitted. -/
def calculate_city_risk (cityFound : Bool) (cityName : String)
    (envData : List EnvironmentData) (trafficData : List TrafficData)
    (serviceData : List ServiceData) (anomalies : List AnomalyRow)
    (now : ℚ) : Except String CityRiskResult :=
  if cityFound = false then Except.error "City not found"
  else
    let envRisk := calculate_environment_risk envData
    let trafficRisk := calculate_traffic_risk trafficData
    let servicesRisk := calculate_services_risk serviceData
    let anomalyRisk := calculate_anomaly_risk anomalies cityName now
    let overall := compositeScore envRisk.score trafficRisk.score
      servicesRisk.score anomalyRisk.score
    Except.ok
      { overallScore := pyRound overall 3,
        riskLevel := determine_level overall,
        environment := envRisk, traffic := trafficRisk,
        services := servicesRisk, anomalies := anomalyRisk }

/-- Rank of a risk level, for stating monotonicity. -/
def levelRank : String → ℕ
  | "medium" => 1
  | "high" => 2
  | _ => 0

/-- Exhaustive band characterisation of determine_level on all of ℚ. -/
theorem determine_level_bands (u : ℚ) :
    (determine_level u = "high" ↔ 0.7 ≤ u) ∧
    (determine_level u = "medium" ↔ 0.4 ≤ u ∧ u < 0.7) ∧
    (determine_level u = "low" ↔ u < 0.4) := by
  unfold determine_level HIGH_RISK_THRESHOLD MEDIUM_RISK_THRESHOLD
  split_ifs with h1 h2
  · exact ⟨⟨fun _ => h1, fun _ => rfl⟩,
      ⟨fun h => by simp at h, fun h => absurd h.2 (not_lt.mpr h1)⟩,
      ⟨fun h => by simp at h, fun h => absurd h (by push_neg; linarith)⟩⟩
  · exact ⟨⟨fun h => by simp at h, fun h => absurd h h1⟩,
      ⟨fun _ => ⟨h2, lt_of_not_le h1⟩, fun _ => rfl⟩,
      ⟨fun h => by simp at h, fun h => absurd h (not_lt.mpr h2)⟩⟩
  · exact ⟨⟨fun h => by simp at h, fun h => absurd h h1⟩,
      ⟨fun h => by simp at h, fun h => absurd h.1 h2⟩,
      ⟨fun _ => lt_of_not_le h2, fun _ => rfl⟩⟩

/-- The risk level, ordered low before medium before high, is monotone in
the score. -/
theorem determine_level_monotone (s t : ℚ) (hst : s ≤ t) :
    levelRank (determine_level s) ≤ levelRank (determine_level t) := by
  unfold determine_level HIGH_RISK_THRESHOLD MEDIUM_RISK_THRESHOLD
  split_ifs with h1 h2 h3 h4 h5 <;> simp [levelRank] <;> linarith

/-- C4: determine_level is exhaustive on [0,1] with the stated bands (high
iff score at least 0.7, medium iff in [0.4, 0.7), low iff below 0.4) and is
monotone in the score. -/
theorem determine_level_bands_monotone (s t : ℚ) (hs0 : 0 ≤ s) (hs1 : s ≤ 1)
    (hst : s ≤ t) :
    (determine_level s = "high" ↔ 0.7 ≤ s) ∧
    (determine_level s = "medium" ↔ 0.4 ≤ s ∧ s < 0.7) ∧
    (determine_level s = "low" ↔ s < 0.4) ∧
    levelRank (determine_level s) ≤ levelRank (determine_level t) :=
  ⟨(determine_level_bands s).1, (determine_level_bands s).2.1,
    (determine_level_bands s).2.2, determine_level_monotone s t hst⟩

/-- C4 witness at score 0.5 and 0.8. -/
theorem determine_level_bands_monotone_witness :
    determine_level 0.5 = "medium" ∧ levelRank (determine_level 0.5) ≤ levelRank (determine_level 0.8) := by
  have h := determine_level_bands_monotone 0.5 0.8 (by norm_num) (by norm_num) (by norm_num)
  exact ⟨h.2.1.mpr (by norm_num), h.2.2.2⟩

/-- C5: the four fixed component weights sum to exactly 1, each lies in the
range the specification allows, the composite is the weighted sum of the
four component scores both as a formula and inside calculate_city_risk, and
the example (0.8, 0.3, 0.2, 0.0) composes to 0.405 with level medium. -/
theorem weights_sum_one_and_composite :
    WEIGHTS_environment + WEIGHTS_traffic + WEIGHTS_services + WEIGHTS_anomalies = 1 ∧
    (0.35 ≤ WEIGHTS_environment ∧ WEIGHTS_environment ≤ 0.40) ∧
    (0.25 ≤ WEIGHTS_traffic ∧ WEIGHTS_traffic ≤ 0.35) ∧
    WEIGHTS_services = 0.25 ∧
    (0.15 ≤ WEIGHTS_anomalies ∧ WEIGHTS_anomalies ≤ 0.20) ∧
    (∀ e t s a : ℚ, compositeScore e t s a = e * 0.35 + t * 0.25 + s * 0.25 + a * 0.15) ∧
    (∀ cityName envData trafficData serviceData anomalies now,
      (calculate_city_risk true cityName envData trafficData serviceData anomalies now).toOption.map
          (fun r => r.overallScore) =
        some (pyRound (compositeScore (calculate_environment_risk envData).score
          (calculate_traffic_risk trafficData).score
          (calculate_services_risk serviceData).score
          (calculate_anomaly_risk anomalies cityName now).score) 3)) ∧
    compositeScore 0.8 0.3 0.2 0 = 0.405 ∧
    determine_level (compositeScore 0.8 0.3 0.2 0) = "medium" := by
  have hcomp : compositeScore 0.8 0.3 0.2 0 = 0.405 := by
    norm_num [compositeScore, WEIGHTS_environment, WEIGHTS_traffic,
      WEIGHTS_services, WEIGHTS_anomalies]
  refine ⟨by norm_num [WEIGHTS_environment, WEIGHTS_traffic, WEIGHTS_services, WEIGHTS_anomalies],
    by norm_num [WEIGHTS_environment], by norm_num [WEIGHTS_traffic],
    by norm_num [WEIGHTS_services], by norm_num [WEIGHTS_anomalies],
    ?_, ?_, hcomp, ?_⟩
  · intro e t s a
    unfold compositeScore WEIGHTS_environment WEIGHTS_traffic WEIGHTS_services WEIGHTS_anomalies
    ring
  · intro cityName envData trafficData serviceData anomalies now
    rfl
  · rw [hcomp]
    norm_num [determine_level, HIGH_RISK_THRESHOLD, MEDIUM_RISK_THRESHOLD]

/-- C1 counterexample: a city that exists, with no environment, traffic or
service samples and no anomalies.  The anomaly component scores 0 (not 0.5)
and the composite is 0.425, so the claimed composite of exactly 0.5 is
false. -/
theorem city_no_data_composite_counterexample :
    ((calculate_city_risk true "ahmedabad" [] [] [] [] 0).toOption.map
        (fun r => r.anomalies.score) = some 0) ∧
    ((calculate_city_risk true "ahmedabad" [] [] [] [] 0).toOption.map
        (fun r => r.overallScore) = some 0.425) ∧
    (0.425 : ℚ) ≠ 0.5 := by
  refine ⟨?_, ?_, by norm_num⟩ <;>
    norm_num [calculate_city_risk, calculate_environment_risk,
      calculate_traffic_risk, calculate_services_risk, calculate_anomaly_risk,
      compositeScore, WEIGHTS_environment, WEIGHTS_traffic, WEIGHTS_services,
      WEIGHTS_anomalies, pyRound, roundHalfEven, Except.toOption]

/-- C1 amended: for an existing city with no stored samples, the
environment, traffic and services components each default to 0.5 with a
no-recent-data explanation, while the anomaly component scores 0 with a
no-unresolved-anomalies explanation; the composite is exactly 0.425 and the
level is medium. -/
theorem city_no_data_risk_defaults (cityName : String) (now : ℚ) :
    calculate_city_risk true cityName [] [] [] [] now =
      Except.ok
        { overallScore := 0.425, riskLevel := "medium",
          environment :=
            { score := 0.5, factors := [],
              explanation := "No recent data available" },
          traffic :=
            { score := 0.5, factors := [],
              explanation := "No recent data available" },
          services :=
            { score := 0.5, factors := [],
              explanation := "No recent data available" },
          anomalies :=
            { score := 0, count := 0, highCount := 0,
              mediumCount := 0, lowCount := 0,
              explanation := "No unresolved anomalies in the last 7 days" } } := by
  norm_num [calculate_city_risk, calculate_environment_risk,
    calculate_traffic_risk, calculate_services_risk, calculate_anomaly_risk,
    compositeScore, WEIGHTS_environment, WEIGHTS_traffic, WEIGHTS_services,
    WEIGHTS_anomalies, pyRound, roundHalfEven, determine_level,
    HIGH_RISK_THRESHOLD, MEDIUM_RISK_THRESHOLD]

/-! ## AnomalyDetector (app/modules/analytics/anomaly.py) -/

/-- AnomalyDetector.HIGH_SEVERITY_THRESHOLD. -/
def HIGH_SEVERITY_THRESHOLD : ℚ := 3.0

/-- AnomalyDetector.MEDIUM_SEVERITY_THRESHOLD. -/
def MEDIUM_SEVERITY_THRESHOLD : ℚ := 2.0

/-- AnomalyDetector.LOW_SEVERITY_THRESHOLD. -/
def LOW_SEVERITY_THRESHOLD : ℚ := 1.5

/-- AnomalyDetector.MIN_DATA_POINTS. -/
def MIN_DATA_POINTS : ℕ := 10

/-- AnomalyDetector.calculate_severity. -/
def calculate_severity (zScore : ℚ) : String :=
  if |zScore| ≥ HIGH_SEVERITY_THRESHOLD then "high"
  else if |zScore| ≥ MEDIUM_SEVERITY_THRESHOLD then "medium"
  else "low"

/-- The anomaly payload assembled by AnomalyDetector._check_metric_anomaly.
The deviation-percent field divides by the historical mean; the source
would raise ZeroDivisionError on a zero mean, while the ℚ convention yields
0 there (no embedded claim touches that case). -/
structure DetectedAnomaly where
  metric : String
  dataType : String
  severity : String
  currentValue : ℚ
  expectedValue : ℚ
  deviation : ℚ
  deviationPercent : ℚ
  direction : String
deriving DecidableEq

/-- AnomalyDetector._check_metric_anomaly.  The source computes
stdev = statistics.stdev(historical_values), an irrational square root in
general; the embedding receives it as the `stdev` argument, constrained in
the theorems by `IsSampleStdev historicalValues stdev`. -/
def check_metric_anomaly (metricName : String) (current : ℚ)
    (historicalValues : List ℚ) (stdev : ℚ) (dataType : String) :
    Option DetectedAnomaly :=
  if historicalValues.length < MIN_DATA_POINTS then none
  else if stdev = 0 then none
  else
    let mean := listMean historicalValues
    let zScore := (current - mean) / stdev
    if |zScore| < LOW_SEVERITY_THRESHOLD then none
    else some
      { metric := metricName, dataType := dataType,
        severity := calculate_severity zScore,
        currentValue := pyRound current 2,
        expectedValue := pyRound mean 2,
        deviation := pyRound zScore 2,
        deviationPercent := pyRound (|(current - mean) / mean * 100|) 1,
        direction := if zScore > 0 then "higher" else "lower" }

/-- The aqi_values list comprehension of
AnomalyDetector.detect_environment_anomalies: every non-null AQI reading of
the 30-day window, which arrives latest-first. -/
def aqiValues (historicalData : List EnvironmentData) : List ℚ :=
  historicalData.filterMap (fun (d : EnvironmentData) => d.aqi)

/-- The AQI clause of AnomalyDetector.detect_environment_anomalies: the
candidate is the AQI of the latest row (the head of the window), the
baseline statistics run over aqi_values, and the check is skipped below
MIN_DATA_POINTS rows or readings. -/
def detect_environment_anomalies_aqi (historicalData : List EnvironmentData)
    (stdev : ℚ) : Option DetectedAnomaly :=
  if historicalData.length < MIN_DATA_POINTS then none
  else
    historicalData.head?.bind (fun latest =>
      latest.aqi.bind (fun current =>
        if MIN_DATA_POINTS ≤ (aqiValues historicalData).length then
          check_metric_anomaly "AQI" current (aqiValues historicalData) stdev "environment"
        else none))

/-- C2: with at least MIN_DATA_POINTS historical samples and positive
standard deviation, no anomaly is emitted below absolute z-score 1.5, and
an emitted anomaly carries severity low on [1.5, 2), medium on [2, 3) and
high on [3, ∞). -/
theorem check_metric_anomaly_severity_bands (metricName dataType : String)
    (current stdev : ℚ) (values : List ℚ)
    (hlen : MIN_DATA_POINTS ≤ values.length)
    (hsd : IsSampleStdev values stdev) (hpos : 0 < stdev) :
    ((|(current - listMean values) / stdev| < 1.5 →
        check_metric_anomaly metricName current values stdev dataType = none) ∧
      (1.5 ≤ |(current - listMean values) / stdev| ∧
          |(current - listMean values) / stdev| < 2 →
        (check_metric_anomaly metricName current values stdev dataType).map
          (fun a => a.severity) = some "low") ∧
      (2 ≤ |(current - listMean values) / stdev| ∧
          |(current - listMean values) / stdev| < 3 →
        (check_metric_anomaly metricName current values stdev dataType).map
          (fun a => a.severity) = some "medium") ∧
      (3 ≤ |(current - listMean values) / stdev| →
        (check_metric_anomaly metricName current values stdev dataType).map
          (fun a => a.severity) = some "high")) := by
  have hnotlen : ¬ values.length < MIN_DATA_POINTS := not_lt.mpr hlen
  have hne : ¬ stdev = 0 := ne_of_gt hpos
  unfold check_metric_anomaly calculate_severity
  unfold LOW_SEVERITY_THRESHOLD MEDIUM_SEVERITY_THRESHOLD HIGH_SEVERITY_THRESHOLD
  rw [if_neg hnotlen, if_neg hne]
  refine ⟨?_, ?_, ?_, ?_⟩
  · intro hlt
    rw [if_pos (by exact_mod_cast hlt)]
  · rintro ⟨h1, h2⟩
    rw [if_neg (by push_neg; exact_mod_cast h1)]
    simp only [Option.map_some']
    rw [if_neg (by push_neg; norm_num; linarith), if_neg (by push_neg; norm_num; linarith)]
  · rintro ⟨h1, h2⟩
    rw [if_neg (by push_neg; norm_num; linarith)]
    simp only [Option.map_some']
    rw [if_neg (by push_neg; norm_num; linarith), if_pos (by norm_num; linarith)]
  · intro h1
    rw [if_neg (by push_neg; norm_num; linarith)]
    simp only [Option.map_some']
    rw [if_pos (by norm_num; linarith)]

/-- Historical window for the C2 witness: ten readings with mean 25 and
sample standard deviation exactly 2. -/
def c2Window : List ℚ := [25, 25, 25, 25, 25, 25, 28, 28, 22, 22]

/-- C2 witness: current reading 31 against c2Window gives z = 3 and an
emitted high-severity anomaly. -/
theorem check_metric_anomaly_severity_bands_witness :
    (check_metric_anomaly "AQI" 31 c2Window 2 "environment").map
      (fun a => a.severity) = some "high" := by
  have hmean : listMean c2Window = 25 := by norm_num [listMean, c2Window]
  have h := check_metric_anomaly_severity_bands "AQI" "environment" 31 2 c2Window
    (by norm_num [c2Window, MIN_DATA_POINTS])
    (by
      constructor
      · norm_num
      · norm_num [sampleVariance, c2Window, hmean, listMean])
    (by norm_num)
  exact h.2.2.2 (by rw [hmean]; norm_num)

/-- Concrete ten-row window for the C3 counterexample: the latest reading
(the candidate) is 28; the full window has mean 25 and sample standard
deviation 2; the window without the candidate has mean 74/3. -/
def c3Window : List EnvironmentData :=
  [⟨0, "t0", some 28, none, none, none⟩,
   ⟨-1, "t1", some 25, none, none, none⟩,
   ⟨-2, "t2", some 25, none, none, none⟩,
   ⟨-3, "t3", some 25, none, none, none⟩,
   ⟨-4, "t4", some 25, none, none, none⟩,
   ⟨-5, "t5", some 25, none, none, none⟩,
   ⟨-6, "t6", some 25, none, none, none⟩,
   ⟨-7, "t7", some 28, none, none, none⟩,
   ⟨-8, "t8", some 22, none, none, none⟩,
   ⟨-9, "t9", some 22, none, none, none⟩]

/-- C3 counterexample: on c3Window the detector emits an anomaly whose
baseline mean (expected value) is 25, the mean over the window including
the candidate, while the mean of the window excluding the most recent
point is 74/3 which differs; so the statistics are not computed over the
window excluding the candidate. -/
theorem anomaly_baseline_includes_candidate_counterexample :
    IsSampleStdev (aqiValues c3Window) 2 ∧
    (detect_environment_anomalies_aqi c3Window 2).map
      (fun a => a.expectedValue) = some 25 ∧
    listMean (aqiValues (c3Window.tail)) = 74/3 ∧
    (74/3 : ℚ) ≠ 25 := by
  refine ⟨⟨by norm_num, ?_⟩, ?_, ?_, by norm_num⟩
  · norm_num [sampleVariance, listMean, aqiValues, c3Window, List.filterMap_cons]
  · norm_num [detect_environment_anomalies_aqi, check_metric_anomaly, c3Window,
      MIN_DATA_POINTS, aqiValues, List.filterMap_cons, listMean,
      LOW_SEVERITY_THRESHOLD, pyRound, roundHalfEven]
    exact ⟨_, ⟨le_abs_self _, rfl⟩, rfl⟩
  · norm_num [aqiValues, c3Window, listMean, List.filterMap_cons]

/-- C3 amended: the mean and sample standard deviation used for the z-score
run over the whole 30-day window including the most recent point (the
candidate being tested), and the z-score computation is skipped when the
standard deviation is 0. -/
theorem anomaly_baseline_includes_candidate (historicalData : List EnvironmentData)
    (latest : EnvironmentData) (current : ℚ)
    (hhead : historicalData.head? = some latest) (haqi : latest.aqi = some current) :
    aqiValues historicalData = current :: aqiValues historicalData.tail ∧
    (MIN_DATA_POINTS ≤ historicalData.length →
      MIN_DATA_POINTS ≤ (aqiValues historicalData).length →
      ∀ stdev, detect_environment_anomalies_aqi historicalData stdev =
        check_metric_anomaly "AQI" current (aqiValues historicalData) stdev "environment") ∧
    (∀ metricName cur vals dataType,
      check_metric_anomaly metricName cur vals 0 dataType = none) := by
  cases historicalData with
  | nil => simp at hhead
  | cons x xs =>
    simp only [List.head?_cons, Option.some.injEq] at hhead
    subst hhead
    refine ⟨?_, ?_, ?_⟩
    · simp [aqiValues, List.filterMap_cons, haqi]
    · intro hlen hvals stdev
      unfold detect_environment_anomalies_aqi
      rw [if_neg (not_lt.mpr hlen)]
      simp only [List.head?_cons, Option.some_bind, haqi]
      rw [if_pos hvals]
    · intro metricName cur vals dataType
      unfold check_metric_anomaly
      by_cases h : vals.length < MIN_DATA_POINTS
      · rw [if_pos h]
      · rw [if_neg h, if_pos rfl]

/-- C3 amended witness at the concrete c3Window. -/
theorem anomaly_baseline_includes_candidate_witness :
    aqiValues c3Window = 28 :: aqiValues c3Window.tail := by
  have h := anomaly_baseline_includes_candidate c3Window
    ⟨0, "t0", some 28, none, none, none⟩ 28 (by norm_num [c3Window]) rfl
  exact h.1

/-! ## Forecaster (app/modules/ml/core.py, forecast_metrics)

sklearn LinearRegression on a single feature is ordinary least squares; its
closed form is rational in the data, so slope, intercept and R-squared are
embedded directly.  numpy convolve over ones(window)/window in valid mode
ends with the mean of the last `window` observations. -/

/-- Slope of the least-squares line of ys against xs. -/
def olsSlope (xs ys : List ℚ) : ℚ :=
  let xbar := listMean xs
  let ybar := listMean ys
  let sxy := ((xs.zip ys).map (fun p => (p.1 - xbar) * (p.2 - ybar))).sum
  let sxx := (xs.map (fun x => (x - xbar) ^ 2)).sum
  sxy / sxx

/-- Intercept of the least-squares line of ys against xs. -/
def olsIntercept (xs ys : List ℚ) : ℚ :=
  listMean ys - olsSlope xs ys * listMean xs

/-- Coefficient of determination of the fitted line: what
LinearRegression.score returns. -/
def r2Score (xs ys : List ℚ) : ℚ :=
  let ssRes := ((xs.zip ys).map
    (fun p => (p.2 - (olsSlope xs ys * p.1 + olsIntercept xs ys)) ^ 2)).sum
  let ssTot := (ys.map (fun y => (y - listMean ys) ^ 2)).sum
  1 - ssRes / ssTot

/-- One per-day prediction entry of forecast_metrics. -/
structure ForecastPrediction where
  day : ℕ
  temperature : ℚ
  aqi : ℚ
  confidence : ℚ
deriving DecidableEq

/-- The payload returned by forecast_metrics. -/
structure ForecastMetricsResult where
  predictions : List ForecastPrediction
  confidenceScore : ℚ
  explanation : String
  method : String
deriving DecidableEq

/-- The sufficient-data branch of forecast_metrics: moving average plus
linear trend, day confidence degrading 5 percent per day with floor 0.5,
overall confidence the clamped mean of the two R-squared values.  The
explanation string keeps the structure of the source f-string with the
two trend directions; numeric R-squared formatting is not reproduced. -/
def forecastCore (city : String) (dataPoints : List EnvironmentData)
    (days : ℕ) : ForecastMetricsResult :=
  let timestamps := dataPoints.map (fun (d : EnvironmentData) => d.timestampHours)
  let temperatures := dataPoints.map (fun (d : EnvironmentData) => d.temperature.getD 0)
  let aqis := dataPoints.map (fun (d : EnvironmentData) => d.aqi.getD 0)
  let window0 := min 72 (timestamps.length / 3)
  let window := if window0 < 3 then 3 else window0
  let tempMaLast := listMean (temperatures.drop (temperatures.length - window))
  let aqiMaLast := listMean (aqis.drop (aqis.length - window))
  let lastTimestamp := timestamps.getLastD 0
  let predictions := (List.range days).map (fun i =>
    let day : ℕ := i + 1
    let futureHour := lastTimestamp + (day : ℚ) * 24
    let tempPred0 := olsSlope timestamps temperatures * futureHour +
      olsIntercept timestamps temperatures
    let tempPred1 := if window ≤ temperatures.length
      then (tempPred0 + tempMaLast) / 2 else tempPred0
    let tempPred2 := max 10 (min 45 tempPred1)
    let aqiPred0 := olsSlope timestamps aqis * futureHour + olsIntercept timestamps aqis
    let aqiPred1 := if window ≤ aqis.length then (aqiPred0 + aqiMaLast) / 2 else aqiPred0
    let aqiPred2 := max 0 (min 500 aqiPred1)
    let dayConfidence := max 0.5 (1 - (day : ℚ) * 0.05)
    ({ day := day, temperature := pyRound tempPred2 1, aqi := pyRound aqiPred2 1,
       confidence := pyRound dayConfidence 2 } : ForecastPrediction))
  let tempR2 := r2Score timestamps temperatures
  let aqiR2 := r2Score timestamps aqis
  let overall := max 0.5 (min 0.95 ((tempR2 + aqiR2) / 2))
  { predictions := predictions,
    confidenceScore := pyRound overall 2,
    explanation := "Forecast based on " ++ toString dataPoints.length ++
      " hours of valid data for " ++ city ++ ". Temperature trend: " ++
      (if olsSlope timestamps temperatures > 0 then "increasing" else "decreasing") ++
      ". AQI trend: " ++
      (if olsSlope timestamps aqis > 0 then "increasing" else "decreasing") ++
      ". Using moving average + linear regression. Confidence degrades by 5% per day into future.",
    method := "moving_average_regression" }

/-- forecast_metrics of app/modules/ml/core.py.  `cityFound` models the
City lookup; the function is total, so the never-raises clause of the
failure policy holds by construction. -/
def forecast_metrics (cityFound : Bool) (city : String)
    (envData : List EnvironmentData) (days : ℕ) : ForecastMetricsResult :=
  if cityFound = false then
    { predictions := [], confidenceScore := 0,
      explanation := "City " ++ city ++ " not found in database.",
      method := "moving_average_regression" }
  else if envData.length < 7 then
    { predictions := [], confidenceScore := 0,
      explanation := "Insufficient data for " ++ city ++
        ". Need at least 7 days of historical data.",
      method := "moving_average_regression" }
  else
    let dataPoints := envData.filter (fun (d : EnvironmentData) =>
      d.aqi.isSome && d.temperature.isSome)
    if dataPoints.length < 7 then
      { predictions := [], confidenceScore := 0,
        explanation := "Insufficient valid data for " ++ city ++
          ". Need at least 7 data points with complete metrics.",
        method := "moving_average_regression" }
    else forecastCore city dataPoints days

/-- C6: for a known city with fewer than 7 valid (aqi and temperature both
present) samples, forecast_metrics returns an empty prediction list with
confidence 0.0 and one of the two insufficient-data explanations; as a
total function it never raises. -/
theorem forecast_metrics_insufficient (city : String)
    (envData : List EnvironmentData) (days : ℕ)
    (hvalid : (envData.filter (fun (d : EnvironmentData) =>
      d.aqi.isSome && d.temperature.isSome)).length < 7) :
    (forecast_metrics true city envData days).predictions = [] ∧
    (forecast_metrics true city envData days).confidenceScore = 0 ∧
    ((forecast_metrics true city envData days).explanation =
        "Insufficient data for " ++ city ++ ". Need at least 7 days of historical data." ∨
      (forecast_metrics true city envData days).explanation =
        "Insufficient valid data for " ++ city ++
          ". Need at least 7 data points with complete metrics.") := by
  unfold forecast_metrics
  by_cases h : envData.length < 7
  · rw [if_neg (by simp), if_pos h]
    exact ⟨rfl, rfl, Or.inl rfl⟩
  · rw [if_neg (by simp), if_neg h]
    simp only []
    rw [if_pos hvalid]
    exact ⟨rfl, rfl, Or.inr rfl⟩

/-- C6 witness: an empty history is insufficient. -/
theorem forecast_metrics_insufficient_witness :
    (forecast_metrics true "gandhinagar" [] 7).predictions = [] ∧
    (forecast_metrics true "gandhinagar" [] 7).confidenceScore = 0 := by
  have h := forecast_metrics_insufficient "gandhinagar" [] 7 (by simp)
  exact ⟨h.1, h.2.1⟩

/-- pyRound leaves the per-day confidence values unchanged: they all have
exact two-decimal representations. -/
theorem pyRound_day_confidence (d : ℕ) :
    pyRound (max 0.5 (1 - (d : ℚ) * 0.05)) 2 = max 0.5 (1 - (d : ℚ) * 0.05) := by
  rcases le_or_lt 10 d with h | h
  · have hd : (10 : ℚ) ≤ (d : ℚ) := by exact_mod_cast h
    have hle : (1 : ℚ) - (d : ℚ) * 0.05 ≤ 0.5 := by linarith
    rw [max_eq_left hle]
    exact pyRound_eq_self _ _ 50 (by norm_num)
  · have hd : (d : ℚ) ≤ 9 := by exact_mod_cast Nat.lt_succ_iff.mp h
    have hle : (0.5 : ℚ) ≤ 1 - (d : ℚ) * 0.05 := by linarith
    rw [max_eq_right hle]
    refine pyRound_eq_self _ _ (100 - 5 * (d : ℤ)) ?_
    push_cast
    ring

/-- C7: with sufficient data the forecast has one prediction per requested
day, the day-d confidence is exactly max(0.5, 1 - 0.05 d) and hence is
non-increasing in the day, and the overall confidence is the mean of the
temperature and AQI R-squared values clamped to [0.5, 0.95] (rounded to two
decimals for the returned field, the rounding the source applies). -/
theorem forecast_metrics_confidence (city : String)
    (envData : List EnvironmentData) (days : ℕ)
    (h7 : 7 ≤ (envData.filter (fun (d : EnvironmentData) =>
      d.aqi.isSome && d.temperature.isSome)).length) :
    (forecast_metrics true city envData days).predictions.length = days ∧
    (∀ i (hi : i < (forecast_metrics true city envData days).predictions.length),
      ((forecast_metrics true city envData days).predictions.get ⟨i, hi⟩).confidence =
        max 0.5 (1 - ((i : ℚ) + 1) * 0.05)) ∧
    (∀ i j (hi : i < (forecast_metrics true city envData days).predictions.length)
      (hj : j < (forecast_metrics true city envData days).predictions.length),
      i ≤ j →
      ((forecast_metrics true city envData days).predictions.get ⟨j, hj⟩).confidence ≤
        ((forecast_metrics true city envData days).predictions.get ⟨i, hi⟩).confidence) ∧
    (forecast_metrics true city envData days).confidenceScore =
      pyRound (max 0.5 (min 0.95
        ((r2Score ((envData.filter (fun (d : EnvironmentData) =>
            d.aqi.isSome && d.temperature.isSome)).map (fun d => d.timestampHours))
            ((envData.filter (fun (d : EnvironmentData) =>
            d.aqi.isSome && d.temperature.isSome)).map (fun d => d.temperature.getD 0)) +
          r2Score ((envData.filter (fun (d : EnvironmentData) =>
            d.aqi.isSome && d.temperature.isSome)).map (fun d => d.timestampHours))
            ((envData.filter (fun (d : EnvironmentData) =>
            d.aqi.isSome && d.temperature.isSome)).map (fun d => d.aqi.getD 0))) / 2))) 2 := by
  have hne : ¬ envData.length < 7 := by
    have hle := List.length_filter_le (fun (d : EnvironmentData) =>
      d.aqi.isSome && d.temperature.isSome) envData
    omega
  have hne2 : ¬ (envData.filter (fun (d : EnvironmentData) =>
      d.aqi.isSome && d.temperature.isSome)).length < 7 := not_lt.mpr h7
  have hform : forecast_metrics true city envData days =
      forecastCore city (envData.filter (fun (d : EnvironmentData) =>
        d.aqi.isSome && d.temperature.isSome)) days := by
    unfold forecast_metrics
    rw [if_neg (by simp), if_neg hne]
    simp only []
    rw [if_neg hne2]
  rw [hform]
  refine ⟨?_, ?_, ?_, ?_⟩
  · simp [forecastCore]
  · intro i hi
    simp only [forecastCore, List.get_eq_getElem, List.getElem_map,
      List.getElem_range] at hi ⊢
    rw [pyRound_day_confidence (i + 1)]
    push_cast
    ring_nf
  · intro i j hi hj hij
    simp only [forecastCore, List.get_eq_getElem, List.getElem_map,
      List.getElem_range] at hi hj ⊢
    rw [pyRound_day_confidence (i + 1), pyRound_day_confidence (j + 1)]
    refine max_le_max le_rfl ?_
    have : (i : ℚ) ≤ (j : ℚ) := by exact_mod_cast hij
    push_cast
    linarith
  · simp only [forecastCore]

/-- Seven complete hourly readings with exactly linear trends, for the C7
witness. -/
def c7Data : List EnvironmentData :=
  [⟨0, "h0", some 100, none, some 20, none⟩,
   ⟨1, "h1", some 102, none, some 21, none⟩,
   ⟨2, "h2", some 104, none, some 22, none⟩,
   ⟨3, "h3", some 106, none, some 23, none⟩,
   ⟨4, "h4", some 108, none, some 24, none⟩,
   ⟨5, "h5", some 110, none, some 25, none⟩,
   ⟨6, "h6", some 112, none, some 26, none⟩]

/-- C7 witness: on seven complete samples the forecast emits seven
predictions. -/
theorem forecast_metrics_confidence_witness :
    (forecast_metrics true "gandhinagar" c7Data 7).predictions.length = 7 := by
  have h := forecast_metrics_confidence "gandhinagar" c7Data 7 (by norm_num [c7Data])
  exact h.1

/-! ## ScenarioEngine (app/modules/scenario/engine.py) -/

/-- Result of ScenarioEngine._analyze_time_window. -/
structure TimeWindowInfo where
  multiplier : ℚ
  periodType : String
  baselineTraffic : ℚ
  startHour : ℕ
  endHour : ℕ
deriving DecidableEq

/-- str.split with a one-character separator, over the character list
(structurally recursive so that concrete windows evaluate). -/
def splitOnChar (c : Char) : List Char → List (List Char)
  | [] => [[]]
  | x :: xs =>
    if x = c then [] :: splitOnChar c xs
    else
      match splitOnChar c xs with
      | [] => [[x]]
      | y :: ys => (x :: y) :: ys

/-- Value of one decimal digit character, none otherwise. -/
def charDigit (c : Char) : Option ℕ :=
  if ('0' : Char) ≤ c ∧ c ≤ ('9' : Char) then some (c.toNat - ('0' : Char).toNat)
  else none

/-- Python int() on a nonempty all-digit string; anything else raises there
and parses to none here. -/
def parseNat (l : List Char) : Option ℕ :=
  if l.isEmpty then none
  else l.foldl (fun acc c => acc.bind (fun n => (charDigit c).map (fun d => n * 10 + d)))
    (some 0)

/-- The int(time.split(":")[0]) parse of one HH:MM endpoint; parse failures
become none, which the caller turns into the default window info exactly
like the except branch of the source. -/
def parseHour (l : List Char) : Option ℕ :=
  match splitOnChar ':' l with
  | h :: _ => parseNat h
  | [] => none

/-- The default info returned when time-window parsing fails. -/
def defaultTimeWindowInfo : TimeWindowInfo :=
  { multiplier := 1.0, periodType := "standard", baselineTraffic := 60,
    startHour := 8, endHour := 11 }

/-- ScenarioEngine._analyze_time_window: peak (multiplier 1.4) when the
window overlaps 08-11 or 17-21, night (0.6) when it lies in 22-06, else
off-peak (1.0); unparsable windows give the standard default. -/
def analyze_time_window (timeWindow : String) : TimeWindowInfo :=
  match splitOnChar '-' timeWindow.data with
  | [startTime, endTime] =>
    match parseHour startTime, parseHour endTime with
    | some startHour, some endHour =>
      let isMorningPeak := startHour ≤ 10 ∧ 8 ≤ endHour
      let isEveningPeak := startHour ≤ 20 ∧ 17 ≤ endHour
      let isNight := 22 ≤ startHour ∨ endHour ≤ 6
      if isMorningPeak ∨ isEveningPeak then
        { multiplier := 1.4, periodType := "peak", baselineTraffic := 85,
          startHour := startHour, endHour := endHour }
      else if isNight then
        { multiplier := 0.6, periodType := "off-peak (night)", baselineTraffic := 30,
          startHour := startHour, endHour := endHour }
      else
        { multiplier := 1.0, periodType := "off-peak", baselineTraffic := 55,
          startHour := startHour, endHour := endHour }
    | _, _ => defaultTimeWindowInfo
  | _ => defaultTimeWindowInfo

/-- Fixed zone characteristics; unknown zones fall back to zone B. -/
structure ZoneInfo where
  congestionLevel : String
  baselineAqiFactor : ℚ
  trafficDensity : ℚ
deriving DecidableEq

/-- The zone_characteristics table of ScenarioEngine.simulate. -/
def zone_characteristics : String → ZoneInfo
  | "A" => { congestionLevel := "High", baselineAqiFactor := 1.15, trafficDensity := 85 }
  | "C" => { congestionLevel := "Low", baselineAqiFactor := 0.85, trafficDensity := 45 }
  | _ => { congestionLevel := "Medium", baselineAqiFactor := 1.0, trafficDensity := 65 }

/-- One impact entry of a simulation.  The source renders baseline and
predicted values of some impacts as strings; the embedding keeps the
underlying numbers (none where the source emits only prose). -/
structure Impact where
  metric : String
  baselineVal : Option ℚ
  predictedVal : Option ℚ
  changePercent : ℚ
  direction : String
  confidence : ℚ
deriving DecidableEq

/-- Python x or default on an optional float: None and 0.0 both fall back. -/
def orDefault (x : Option ℚ) (d : ℚ) : ℚ :=
  match x with
  | none => d
  | some v => if v = 0 then d else v

/-- The impacts list assembled by ScenarioEngine.simulate, in source order:
AQI (only when traffic changes), PM2.5 and noise and road wear (only under
the heavy-vehicle restriction), travel time (only for reductions), adjacent
zone spillover (only above 20 percent absolute change), the always-present
zone baseline assessment, and commuter fuel cost. -/
def simulate_impacts (trafficChange : ℚ) (heavyRestriction : Bool)
    (timeWindow : String) (zone : String)
    (baselineAqiOpt baselineDensityOpt : Option ℚ) : List Impact :=
  let _baselineAqi0 := orDefault baselineAqiOpt 100
  let ta := analyze_time_window timeWindow
  let peakMultiplier := ta.multiplier
  let baselineDensity := ta.baselineTraffic
  let zinfo := zone_characteristics zone
  let baselineAqi := (orDefault baselineAqiOpt 100) * zinfo.baselineAqiFactor
  let impacts1 : List Impact :=
    if trafficChange ≠ 0 then
      let aqiChange0 := trafficChange * 0.65 * peakMultiplier
      let aqiChange := if heavyRestriction then aqiChange0 * 1.4 else aqiChange0
      let predictedAqi := baselineAqi * (1 + aqiChange / 100)
      [{ metric := "Air Quality Index (AQI)",
         baselineVal := some (pyRound baselineAqi 1),
         predictedVal := some (pyRound predictedAqi 1),
         changePercent := pyRound aqiChange 1,
         direction := if aqiChange < 0 then "decrease" else "increase",
         confidence := 0.78 }]
    else []
  let impacts2 : List Impact :=
    if heavyRestriction then
      let pm25Reduction := -15.0 * peakMultiplier
      let estimatedCurrentPm25 := baselineAqi * 0.6
      let predictedPm25 := estimatedCurrentPm25 * (1 + pm25Reduction / 100)
      [{ metric := "PM2.5 Concentration",
         baselineVal := some (pyRound estimatedCurrentPm25 1),
         predictedVal := some (pyRound predictedPm25 1),
         changePercent := pyRound pm25Reduction 1,
         direction := "decrease", confidence := 0.72 },
       { metric := "Noise Pollution", baselineVal := none, predictedVal := none,
         changePercent := pyRound (-8.0 * peakMultiplier) 1,
         direction := "decrease", confidence := 0.68 },
       { metric := "Road Infrastructure Stress", baselineVal := none,
         predictedVal := none, changePercent := pyRound (-20.0) 1,
         direction := "decrease", confidence := 0.75 }]
    else []
  let impacts3 : List Impact :=
    if trafficChange < 0 then
      let congestionImprovement := |trafficChange| * 0.8 * peakMultiplier
      let timeSaved := congestionImprovement * 1.2
      [{ metric := "Travel Time", baselineVal := none, predictedVal := none,
         changePercent := pyRound (-timeSaved) 1,
         direction := "decrease", confidence := 0.82 }]
    else []
  let impacts4 : List Impact :=
    if 20 < |trafficChange| then
      let spilloverTraffic := trafficChange * 0.15 * (1 + (peakMultiplier - 1) * 0.5)
      let adjacentZones := (["A", "B", "C"].filter (fun z => z ≠ zone))
      [{ metric := "Traffic in Adjacent Zones (" ++
           String.intercalate ", " adjacentZones ++ ")",
         baselineVal := none, predictedVal := none,
         changePercent := pyRound spilloverTraffic 1,
         direction := if 0 < spilloverTraffic then "increase" else "decrease",
         confidence := 0.65 }]
    else []
  let zoneBaselineTraffic := zinfo.trafficDensity * (baselineDensity / 60)
  let impacts5 : List Impact :=
    [{ metric := "Zone " ++ zone ++ " Baseline Assessment",
       baselineVal := none, predictedVal := some (pyRound zoneBaselineTraffic 1),
       changePercent := 0, direction := "baseline", confidence := 0.85 }]
  let impacts6 : List Impact :=
    if trafficChange < 0 then
      let fuelSavings := |trafficChange| * 0.4 * peakMultiplier
      [{ metric := "Commuter Fuel Cost", baselineVal := none, predictedVal := none,
         changePercent := pyRound (-fuelSavings) 1,
         direction := "decrease", confidence := 0.70 }]
    else if 0 < trafficChange then
      let fuelWaste := trafficChange * 0.4 * peakMultiplier
      [{ metric := "Commuter Fuel Cost", baselineVal := none, predictedVal := none,
         changePercent := pyRound fuelWaste 1,
         direction := "increase", confidence := 0.70 }]
    else []
  impacts1 ++ impacts2 ++ impacts3 ++ impacts4 ++ impacts5 ++ impacts6

/-- C9: whenever the traffic change is nonzero the simulation emits the AQI
impact whose percent change is traffic_change times 0.65 times the peak
multiplier, further times 1.4 when the heavy-vehicle restriction is active,
with predicted AQI baseline times (1 + change over 100) and confidence
0.78 (percent changes carry the one-decimal rounding the source applies);
and the PM2.5 impact, a fixed -15 percent times the peak multiplier at
confidence 0.72, is emitted exactly when the restriction is active,
independently of the sign of the traffic change. -/
theorem simulate_aqi_pm25_impacts (trafficChange : ℚ) (heavyRestriction : Bool)
    (timeWindow zone : String) (bAqi bDen : Option ℚ)
    (htc : trafficChange ≠ 0) :
    (({ metric := "Air Quality Index (AQI)",
        baselineVal := some (pyRound
          (orDefault bAqi 100 * (zone_characteristics zone).baselineAqiFactor) 1),
        predictedVal := some (pyRound
          (orDefault bAqi 100 * (zone_characteristics zone).baselineAqiFactor *
            (1 + (if heavyRestriction then
                trafficChange * 0.65 * (analyze_time_window timeWindow).multiplier * 1.4
              else
                trafficChange * 0.65 * (analyze_time_window timeWindow).multiplier) / 100)) 1),
        changePercent := pyRound
          (if heavyRestriction then
              trafficChange * 0.65 * (analyze_time_window timeWindow).multiplier * 1.4
            else
              trafficChange * 0.65 * (analyze_time_window timeWindow).multiplier) 1,
        direction := if (if heavyRestriction then
              trafficChange * 0.65 * (analyze_time_window timeWindow).multiplier * 1.4
            else
              trafficChange * 0.65 * (analyze_time_window timeWindow).multiplier) < 0
          then "decrease" else "increase",
        confidence := 0.78 } : Impact) ∈
      simulate_impacts trafficChange heavyRestriction timeWindow zone bAqi bDen) ∧
    ((({ metric := "PM2.5 Concentration",
         baselineVal := some (pyRound
           (orDefault bAqi 100 * (zone_characteristics zone).baselineAqiFactor * 0.6) 1),
         predictedVal := some (pyRound
           (orDefault bAqi 100 * (zone_characteristics zone).baselineAqiFactor * 0.6 *
             (1 + -15.0 * (analyze_time_window timeWindow).multiplier / 100)) 1),
         changePercent := pyRound (-15.0 * (analyze_time_window timeWindow).multiplier) 1,
         direction := "decrease",
         confidence := 0.72 } : Impact) ∈
      simulate_impacts trafficChange heavyRestriction timeWindow zone bAqi bDen) ↔
        heavyRestriction = true) := by
  constructor
  · simp only [simulate_impacts]
    rw [if_pos htc]
    simp [List.mem_append]
  · cases heavyRestriction with
    | true =>
      simp only [simulate_impacts]
      rw [if_pos htc]
      simp [List.mem_append]
    | false =>
      simp only [simulate_impacts]
      rw [if_pos htc]
      simp only [Bool.false_eq_true, iff_false]
      split_ifs <;>
        first
        | exact False.elim (by assumption)
        | norm_num [List.mem_append, List.mem_cons, Impact.mk.injEq]

/-- C9 witness (Example 4): zone A, peak window 08:00-11:00 (multiplier
1.4), traffic change -20 with the restriction active: the AQI impact is a
-25.5 percent decrease and the PM2.5 impact a -21 percent decrease. -/
theorem simulate_aqi_pm25_impacts_witness :
    (({ metric := "Air Quality Index (AQI)", baselineVal := some 115,
        predictedVal := some 85.7, changePercent := -25.5,
        direction := "decrease", confidence := 0.78 } : Impact) ∈
      simulate_impacts (-20) true "08:00-11:00" "A" (some 100) (some 60)) ∧
    (({ metric := "PM2.5 Concentration", baselineVal := some 69,
        predictedVal := some 54.5, changePercent := -21,
        direction := "decrease", confidence := 0.72 } : Impact) ∈
      simulate_impacts (-20) true "08:00-11:00" "A" (some 100) (some 60)) := by
  have hm : (analyze_time_window "08:00-11:00").multiplier = 1.4 := rfl
  have hz : zone_characteristics "A" = ⟨"High", 1.15, 85⟩ := rfl
  have h := simulate_aqi_pm25_impacts (-20) true "08:00-11:00" "A"
    (some 100) (some 60) (by norm_num)
  constructor
  · have h1 := h.1
    convert h1 using 2 <;>
      norm_num [Impact.mk.injEq, pyRound, roundHalfEven, orDefault, hm, hz]
  · have h2 := h.2.mpr rfl
    convert h2 using 2 <;>
      norm_num [Impact.mk.injEq, pyRound, roundHalfEven, orDefault, hm, hz]

/-! ## AlertGenerator (app/modules/alerts/generator.py)

The database is a record of query-visible tables; time-range filters take a
`now` parameter (hours).  Alert.create appends a row with is_active
defaulting to true (app/models.py line 174).  The output of the ml
detector (detect_anomalies of app/modules/ml/core.py) reads only the
metric tables, which generate_all_alerts never writes, so its anomaly list
and aggregate confidence are carried as read-only fields mlAnomalies and
mlConfidence of the database record.  The except blocks of the source are
unreachable in the embedding because every embedded operation is total. -/

/-- One alerts row; metadata is the JSON map restricted to string values
(numeric values are carried via toString). -/
structure AlertRec where
  city : Option String
  typ : String
  severity : String
  audience : String
  title : String
  message : String
  isActive : Bool
  metadata : List (String × String)
deriving DecidableEq

/-- One risk_scores row. -/
structure RiskScoreRow where
  id : String
  city : String
  category : String
  score : ℚ
  level : String
  calculatedAt : ℚ
deriving DecidableEq

/-- One entry of the ml anomaly-detection result. -/
structure MlAnomalyRow where
  metric : String
  timestamp : String
  value : ℚ
  zScore : ℚ
  severity : String
deriving DecidableEq

/-- One forecasts row. -/
structure ForecastRecord where
  id : String
  city : String
  metricType : String
  targetDate : ℚ
  predictedValue : ℚ
  confidence : ℚ
deriving DecidableEq

/-- One data_sources row. -/
structure DataSourceRow where
  id : String
  name : String
  typ : String
  isOnline : Bool
  failureCount : ℕ
deriving DecidableEq

/-- The storage state visible to the alert generator. -/
structure Db where
  cities : List String
  riskScores : List RiskScoreRow
  anomalies : List AnomalyRow
  mlAnomalies : List MlAnomalyRow
  mlConfidence : ℚ
  forecasts : List ForecastRecord
  sources : List DataSourceRow
  alerts : List AlertRec
deriving DecidableEq

/-- Insert into a list sorted by the boolean relation le. -/
def insertSorted {α : Type} (le : α → α → Bool) (x : α) : List α → List α
  | [] => [x]
  | y :: ys => if le x y then x :: y :: ys else y :: insertSorted le x ys

/-- Insertion sort by the boolean relation le; models order_by clauses. -/
def sortBy {α : Type} (le : α → α → Bool) (l : List α) : List α :=
  l.foldr (insertSorted le) []

/-- Membership is preserved by sorted insertion. -/
theorem mem_insertSorted {α : Type} {le : α → α → Bool} {x a : α} {l : List α} :
    a ∈ insertSorted le x l ↔ a = x ∨ a ∈ l := by
  induction l with
  | nil => simp [insertSorted]
  | cons y ys ih =>
    simp only [insertSorted]
    split_ifs <;> simp [ih] <;> tauto

/-- Sorting does not change membership. -/
theorem mem_sortBy {α : Type} {le : α → α → Bool} {a : α} {l : List α} :
    a ∈ sortBy le l ↔ a ∈ l := by
  induction l with
  | nil => simp [sortBy]
  | cons y ys ih =>
    simp only [sortBy, List.foldr_cons, mem_insertSorted]
    simp only [sortBy] at ih
    rw [ih]
    simp

/-- The shared per-family loop of the alert generator: per candidate, an
optional threshold pre-gate, the dedup existence query against the live
alerts table, an optional severity post-gate, and Alert.create appending
the new row; returns the final alerts table and the created count. -/
def processFamily {α : Type} (pre : α → Bool) (dedup : α → AlertRec → Bool)
    (post : α → Bool) (make : α → AlertRec) :
    List α → List AlertRec → List AlertRec × ℕ
  | [], alerts => (alerts, 0)
  | c :: cs, alerts =>
    if pre c then
      if (alerts.find? (dedup c)).isSome then
        processFamily pre dedup post make cs alerts
      else if post c then
        let rest := processFamily pre dedup post make cs (alerts ++ [make c])
        (rest.1, rest.2 + 1)
      else
        processFamily pre dedup post make cs alerts
    else
      processFamily pre dedup post make cs alerts

/-- AlertGenerator.RISK_THRESHOLDS high. -/
def RISK_THRESHOLD_high : ℚ := 0.7

/-- AlertGenerator.RISK_THRESHOLDS medium. -/
def RISK_THRESHOLD_medium : ℚ := 0.5

/-- AlertGenerator.ML_ANOMALY_CONFIDENCE_MIN. -/
def ML_ANOMALY_CONFIDENCE_MIN : ℚ := 0.6

/-- AlertGenerator.ML_ANOMALY_CONFIDENCE_DOWNGRADE. -/
def ML_ANOMALY_CONFIDENCE_DOWNGRADE : ℚ := 0.75

/-- Risk-family candidates: risk scores of the city from the last 6 hours,
newest first, at most 10. -/
def riskCandidates (db : Db) (city : String) (now : ℚ) : List RiskScoreRow :=
  (sortBy (fun a b => decide (b.calculatedAt ≤ a.calculatedAt))
    (db.riskScores.filter (fun r =>
      decide (r.city = city) && decide (now - 6 ≤ r.calculatedAt)))).take 10

/-- Risk-family dedup query: an active risk alert of the city whose
metadata contains the candidate category. -/
def riskDedup (city : String) (r : RiskScoreRow) (a : AlertRec) : Bool :=
  decide (a.city = some city) && decide (a.typ = "risk") && a.isActive &&
    decide (("category", r.category) ∈ a.metadata)

/-- Risk-family creation gate: no alert below the medium threshold. -/
def riskPost (r : RiskScoreRow) : Bool := decide (RISK_THRESHOLD_medium ≤ r.score)

/-- The alert row created for a risk score (formatted score interpolation
of the source message is not reproduced). -/
def riskMake (city : String) (r : RiskScoreRow) : AlertRec :=
  if RISK_THRESHOLD_high ≤ r.score then
    { city := some city, typ := "risk", severity := "critical", audience := "both",
      title := "High Risk Alert: " ++ r.category,
      message := r.category ++ " risk level is HIGH. Immediate attention recommended.",
      isActive := true,
      metadata := [("category", r.category), ("score", toString r.score),
        ("level", r.level), ("risk_id", r.id)] }
  else
    { city := some city, typ := "risk", severity := "warning", audience := "internal",
      title := "Elevated Risk: " ++ r.category,
      message := r.category ++ " risk level is MEDIUM. Monitor situation closely.",
      isActive := true,
      metadata := [("category", r.category), ("score", toString r.score),
        ("level", r.level), ("risk_id", r.id)] }

/-- AlertGenerator.generate_risk_alerts. -/
def generate_risk_alerts (db : Db) (city : String) (now : ℚ) : List AlertRec × ℕ :=
  processFamily (fun _ => true) (riskDedup city) riskPost (riskMake city)
    (riskCandidates db city now) db.alerts

/-- Plain-anomaly-family candidates: unresolved anomalies of the city from
the last 2 hours, newest first. -/
def anomalyCandidates (db : Db) (city : String) (now : ℚ) : List AnomalyRow :=
  sortBy (fun a b => decide (b.detectedAt ≤ a.detectedAt))
    (db.anomalies.filter (fun a =>
      decide (a.city = city) && decide (now - 2 ≤ a.detectedAt) && !a.resolved))

/-- Plain-anomaly-family dedup query keyed on the anomaly id. -/
def anomalyDedup (city : String) (an : AnomalyRow) (a : AlertRec) : Bool :=
  decide (a.city = some city) && decide (a.typ = "anomaly") && a.isActive &&
    decide (("anomaly_id", an.id) ∈ a.metadata)

/-- Severity and audience mapping shared by the two anomaly families. -/
def anomalySeverityAlert (s : String) : String × String :=
  if s = "high" then ("critical", "both")
  else if s = "medium" then ("warning", "internal")
  else ("info", "internal")

/-- The alert row created for a stored anomaly. -/
def anomalyMake (city : String) (an : AnomalyRow) : AlertRec :=
  { city := some city, typ := "anomaly",
    severity := (anomalySeverityAlert an.severity).1,
    audience := (anomalySeverityAlert an.severity).2,
    title := "Anomaly Detected: " ++ an.metricType,
    message := "Unusual " ++ an.metricType ++ " reading detected.",
    isActive := true,
    metadata := [("anomaly_id", an.id), ("metric_type", an.metricType),
      ("value", toString an.value), ("deviation", toString an.deviation)] }

/-- AlertGenerator.generate_anomaly_alerts. -/
def generate_anomaly_alerts (db : Db) (city : String) (now : ℚ) : List AlertRec × ℕ :=
  processFamily (fun _ => true) (anomalyDedup city) (fun _ => true) (anomalyMake city)
    (anomalyCandidates db city now) db.alerts

/-- The ml dedup signature string. -/
def mlSignature (m : MlAnomalyRow) : String := "ml:" ++ m.metric ++ ":" ++ m.timestamp

/-- Ml-family dedup query keyed on the signature. -/
def mlDedup (city : String) (m : MlAnomalyRow) (a : AlertRec) : Bool :=
  decide (a.city = some city) && decide (a.typ = "anomaly") && a.isActive &&
    decide (("signature", mlSignature m) ∈ a.metadata)

/-- The alert row created for an ml anomaly, with the low-confidence
downgrade of critical to warning and internal audience. -/
def mlMake (city : String) (confidence : ℚ) (m : MlAnomalyRow) : AlertRec :=
  let sevAud := anomalySeverityAlert m.severity
  let sevAud2 := if confidence < ML_ANOMALY_CONFIDENCE_DOWNGRADE ∧ sevAud.1 = "critical"
    then (("warning", "internal") : String × String) else sevAud
  { city := some city, typ := "anomaly", severity := sevAud2.1, audience := sevAud2.2,
    title := "ML Anomaly Detected: " ++ m.metric,
    message := "ML detected abnormal " ++ m.metric ++ " value.",
    isActive := true,
    metadata := [("signature", mlSignature m), ("source", "ml"), ("metric", m.metric),
      ("timestamp", m.timestamp), ("value", toString m.value),
      ("z_score", toString m.zScore), ("severity", m.severity),
      ("confidence_score", toString confidence)] }

/-- AlertGenerator.generate_ml_anomaly_alerts: skipped entirely below the
minimum aggregate confidence. -/
def generate_ml_anomaly_alerts (db : Db) (city : String) : List AlertRec × ℕ :=
  if db.mlConfidence < ML_ANOMALY_CONFIDENCE_MIN then (db.alerts, 0)
  else processFamily (fun _ => true) (mlDedup city) (fun _ => true)
    (mlMake city db.mlConfidence) db.mlAnomalies db.alerts

/-- AlertGenerator.FORECAST_THRESHOLDS as a partial map from metric type to
the (warning, critical) pair. -/
def FORECAST_THRESHOLDS : String → Option (ℚ × ℚ)
  | "aqi" => some (100, 200)
  | "pm25" => some (35, 75)
  | "waterStress" => some (0.7, 0.9)
  | _ => none

/-- Forecast-family candidates: forecasts of the city targeted inside the
next 24 hours, earliest first. -/
def forecastCandidates (db : Db) (city : String) (now : ℚ) : List ForecastRecord :=
  sortBy (fun a b => decide (a.targetDate ≤ b.targetDate))
    (db.forecasts.filter (fun f => decide (f.city = city) &&
      decide (now ≤ f.targetDate) && decide (f.targetDate ≤ now + 24)))

/-- Forecast-family threshold gate: skip metrics without thresholds and
predictions below the warning level. -/
def forecastPre (f : ForecastRecord) : Bool :=
  match FORECAST_THRESHOLDS f.metricType with
  | none => false
  | some p => decide (p.1 ≤ f.predictedValue)

/-- Forecast-family dedup query keyed on the forecast id. -/
def forecastDedup (city : String) (f : ForecastRecord) (a : AlertRec) : Bool :=
  decide (a.city = some city) && decide (a.typ = "forecast") && a.isActive &&
    decide (("forecast_id", f.id) ∈ a.metadata)

/-- The alert row created for a threshold-breaching forecast. -/
def forecastMake (city : String) (f : ForecastRecord) : AlertRec :=
  { city := some city, typ := "forecast",
    severity := match FORECAST_THRESHOLDS f.metricType with
      | none => "warning"
      | some p => if p.2 ≤ f.predictedValue then "critical" else "warning",
    audience := "both",
    title := "Forecast Alert: " ++ f.metricType ++ " Expected to Rise",
    message := "Predicted " ++ f.metricType ++ " level expected.",
    isActive := true,
    metadata := [("forecast_id", f.id), ("metric_type", f.metricType),
      ("predicted_value", toString f.predictedValue)] }

/-- AlertGenerator.generate_forecast_alerts. -/
def generate_forecast_alerts (db : Db) (city : String) (now : ℚ) : List AlertRec × ℕ :=
  processFamily forecastPre (forecastDedup city) (fun _ => true) (forecastMake city)
    (forecastCandidates db city now) db.alerts

/-- System-family candidates: offline data sources (not city-scoped). -/
def systemCandidates (db : Db) : List DataSourceRow :=
  db.sources.filter (fun s => !s.isOnline)

/-- System-family dedup query keyed on the source id; the source query has
no city filter. -/
def systemDedup (s : DataSourceRow) (a : AlertRec) : Bool :=
  decide (a.typ = "system") && a.isActive && decide (("source_id", s.id) ∈ a.metadata)

/-- The alert row created for an offline source. -/
def systemMake (city : String) (s : DataSourceRow) : AlertRec :=
  { city := some city, typ := "system", severity := "warning", audience := "internal",
    title := "Data Source Offline: " ++ s.name,
    message := "Data source " ++ s.name ++ " is offline.",
    isActive := true,
    metadata := [("source_id", s.id), ("source_name", s.name),
      ("source_type", s.typ), ("failure_count", toString s.failureCount)] }

/-- AlertGenerator.generate_system_alerts. -/
def generate_system_alerts (db : Db) (city : String) : List AlertRec × ℕ :=
  processFamily (fun _ => true) systemDedup (fun _ => true) (systemMake city)
    (systemCandidates db) db.alerts

/-- The returned payload of AlertGenerator.generate_all_alerts: total and
per-family created counts, plus the storage state after the call. -/
structure AlertGenResult where
  alertsCreated : ℕ
  riskCount : ℕ
  anomalyCount : ℕ
  mlAnomalyCount : ℕ
  forecastCount : ℕ
  systemCount : ℕ
  db : Db
deriving DecidableEq

/-- AlertGenerator.generate_all_alerts: unknown city gives the error
payload, otherwise the five families run in source order, each seeing the
alerts created by the previous ones. -/
def generate_all_alerts (db : Db) (cityName : String) (now : ℚ) :
    Except String AlertGenResult :=
  if cityName ∈ db.cities then
    let r1 := generate_risk_alerts db cityName now
    let db1 : Db := { db with alerts := r1.1 }
    let r2 := generate_anomaly_alerts db1 cityName now
    let db2 : Db := { db1 with alerts := r2.1 }
    let r3 := generate_ml_anomaly_alerts db2 cityName
    let db3 : Db := { db2 with alerts := r3.1 }
    let r4 := generate_forecast_alerts db3 cityName now
    let db4 : Db := { db3 with alerts := r4.1 }
    let r5 := generate_system_alerts db4 cityName
    let db5 : Db := { db4 with alerts := r5.1 }
    Except.ok
      { alertsCreated := r1.2 + r2.2 + r3.2 + r4.2 + r5.2,
        riskCount := r1.2, anomalyCount := r2.2, mlAnomalyCount := r3.2,
        forecastCount := r4.2, systemCount := r5.2, db := db5 }
  else Except.error ("City " ++ cityName ++ " not found")

/-- The alerts table only grows across a family run. -/
theorem processFamily_subset {α : Type} (pre : α → Bool) (dedup : α → AlertRec → Bool)
    (post : α → Bool) (make : α → AlertRec) (cs : List α) (A : List AlertRec) :
    ∀ a ∈ A, a ∈ (processFamily pre dedup post make cs A).1 := by
  induction cs generalizing A with
  | nil => intro a ha; simpa [processFamily] using ha
  | cons c cs ih =>
    intro a ha
    simp only [processFamily]
    split_ifs with h1 h2 h3
    · exact ih A a ha
    · exact ih (A ++ [make c]) a (List.mem_append_left _ ha)
    · exact ih A a ha
    · exact ih A a ha

/-- After a family run, every candidate that passes both gates has a
matching alert in the resulting table. -/
theorem processFamily_cover {α : Type} (pre : α → Bool) (dedup : α → AlertRec → Bool)
    (post : α → Bool) (make : α → AlertRec)
    (hmk : ∀ c, pre c = true → post c = true → dedup c (make c) = true)
    (cs : List α) (A : List AlertRec) :
    ∀ c ∈ cs, pre c = true → post c = true →
      ∃ a, a ∈ (processFamily pre dedup post make cs A).1 ∧ dedup c a = true := by
  induction cs generalizing A with
  | nil => intro c hc _ _; exact absurd hc (List.not_mem_nil c)
  | cons c0 cs ih =>
    intro c hc hpre hpost
    rcases List.mem_cons.mp hc with rfl | hc2
    · simp only [processFamily]
      rw [if_pos hpre]
      by_cases hf : (A.find? (dedup c)).isSome
      · rw [if_pos hf]
        obtain ⟨a, hfa⟩ := Option.isSome_iff_exists.mp hf
        exact ⟨a, processFamily_subset _ _ _ _ cs A a (List.mem_of_find?_eq_some hfa),
          List.find?_some hfa⟩
      · rw [if_neg hf, if_pos hpost]
        exact ⟨make c, processFamily_subset _ _ _ _ cs (A ++ [make c]) (make c)
          (List.mem_append_right _ (List.mem_singleton.mpr rfl)), hmk c hpre hpost⟩
    · simp only [processFamily]
      split_ifs with h1 h2 h3
      · exact ih A c hc2 hpre hpost
      · exact ih (A ++ [make c0]) c hc2 hpre hpost
      · exact ih A c hc2 hpre hpost
      · exact ih A c hc2 hpre hpost

/-- A family run creates nothing when every candidate that passes both
gates already has a matching alert in the table. -/
theorem processFamily_noop {α : Type} (pre : α → Bool) (dedup : α → AlertRec → Bool)
    (post : α → Bool) (make : α → AlertRec) (cs : List α) (A : List AlertRec)
    (hcov : ∀ c ∈ cs, pre c = true → post c = true → ∃ a, a ∈ A ∧ dedup c a = true) :
    processFamily pre dedup post make cs A = (A, 0) := by
  induction cs with
  | nil => rfl
  | cons c0 cs ih =>
    have htail : ∀ c ∈ cs, pre c = true → post c = true →
        ∃ a, a ∈ A ∧ dedup c a = true :=
      fun c hc => hcov c (List.mem_cons_of_mem _ hc)
    simp only [processFamily]
    by_cases h1 : pre c0 = true
    · rw [if_pos h1]
      by_cases h3 : post c0 = true
      · have hf : (A.find? (dedup c0)).isSome := by
          obtain ⟨a, ha, hda⟩ := hcov c0 (List.mem_cons_self _ _) h1 h3
          exact List.find?_isSome.mpr ⟨a, ha, hda⟩
        rw [if_pos hf]
        exact ih htail
      · by_cases hf : (A.find? (dedup c0)).isSome
        · rw [if_pos hf]; exact ih htail
        · rw [if_neg hf, if_neg h3]; exact ih htail
    · rw [if_neg h1]; exact ih htail

/-- A family run is a no-op on any table that contains everything the same
run from an arbitrary starting table produced. -/
theorem processFamily_noop_of_subset {α : Type} (pre : α → Bool)
    (dedup : α → AlertRec → Bool) (post : α → Bool) (make : α → AlertRec)
    (hmk : ∀ c, pre c = true → post c = true → dedup c (make c) = true)
    (cs : List α) (A B : List AlertRec)
    (hsub : ∀ a ∈ (processFamily pre dedup post make cs A).1, a ∈ B) :
    processFamily pre dedup post make cs B = (B, 0) := by
  apply processFamily_noop
  intro c hc hpre hpost
  obtain ⟨a, ha, hda⟩ := processFamily_cover pre dedup post make hmk cs A c hc hpre hpost
  exact ⟨a, hsub a ha, hda⟩

/-- A freshly created risk alert matches its own dedup query. -/
theorem riskMake_matches (city : String) (r : RiskScoreRow) :
    riskDedup city r (riskMake city r) = true := by
  unfold riskDedup riskMake
  split_ifs <;> simp

/-- A freshly created plain-anomaly alert matches its own dedup query. -/
theorem anomalyMake_matches (city : String) (an : AnomalyRow) :
    anomalyDedup city an (anomalyMake city an) = true := by
  simp [anomalyDedup, anomalyMake]

/-- A freshly created ml-anomaly alert matches its own dedup query. -/
theorem mlMake_matches (city : String) (confidence : ℚ) (m : MlAnomalyRow) :
    mlDedup city m (mlMake city confidence m) = true := by
  simp [mlDedup, mlMake]

/-- A freshly created forecast alert matches its own dedup query. -/
theorem forecastMake_matches (city : String) (f : ForecastRecord) :
    forecastDedup city f (forecastMake city f) = true := by
  simp [forecastDedup, forecastMake]

/-- A freshly created system alert matches its own dedup query. -/
theorem systemMake_matches (city : String) (s : DataSourceRow) :
    systemDedup s (systemMake city s) = true := by
  simp [systemDedup, systemMake]

/-- C8: generate_all_alerts run twice in immediate succession with no
intervening state change creates no alert on the second call: every family
skips each candidate because an active alert with the matching metadata
signature already exists, so the total and all five per-family counts are
zero the second time. -/
theorem generate_all_alerts_idempotent (db : Db) (city : String) (now : ℚ)
    (hcity : city ∈ db.cities) :
    ∃ r1 r2, generate_all_alerts db city now = Except.ok r1 ∧
      generate_all_alerts r1.db city now = Except.ok r2 ∧
      r2.alertsCreated = 0 ∧ r2.riskCount = 0 ∧ r2.anomalyCount = 0 ∧
      r2.mlAnomalyCount = 0 ∧ r2.forecastCount = 0 ∧ r2.systemCount = 0 := by
  set p1 := generate_risk_alerts db city now with hp1
  set db1 : Db := { db with alerts := p1.1 } with hdb1
  set p2 := generate_anomaly_alerts db1 city now with hp2
  set db2 : Db := { db1 with alerts := p2.1 } with hdb2
  set p3 := generate_ml_anomaly_alerts db2 city with hp3
  set db3 : Db := { db2 with alerts := p3.1 } with hdb3
  set p4 := generate_forecast_alerts db3 city now with hp4
  set db4 : Db := { db3 with alerts := p4.1 } with hdb4
  set p5 := generate_system_alerts db4 city with hp5
  set db5 : Db := { db4 with alerts := p5.1 } with hdb5
  have hcall1 : generate_all_alerts db city now = Except.ok
      { alertsCreated := p1.2 + p2.2 + p3.2 + p4.2 + p5.2,
        riskCount := p1.2, anomalyCount := p2.2, mlAnomalyCount := p3.2,
        forecastCount := p4.2, systemCount := p5.2, db := db5 } := by
    unfold generate_all_alerts
    rw [if_pos hcity]
  -- the alerts table grows monotonically through the five stages
  have hs12 : ∀ a ∈ p1.1, a ∈ p2.1 := fun a ha =>
    processFamily_subset (fun _ => true) (anomalyDedup city) (fun _ => true)
      (anomalyMake city) (anomalyCandidates db1 city now) db1.alerts a ha
  have hs23 : ∀ a ∈ p2.1, a ∈ p3.1 := by
    intro a ha
    show a ∈ (generate_ml_anomaly_alerts db2 city).1
    unfold generate_ml_anomaly_alerts
    split_ifs
    · exact ha
    · exact processFamily_subset _ _ _ _ _ _ a ha
  have hs34 : ∀ a ∈ p3.1, a ∈ p4.1 := fun a ha =>
    processFamily_subset forecastPre (forecastDedup city) (fun _ => true)
      (forecastMake city) (forecastCandidates db3 city now) db3.alerts a ha
  have hs45 : ∀ a ∈ p4.1, a ∈ p5.1 := fun a ha =>
    processFamily_subset (fun _ => true) systemDedup (fun _ => true)
      (systemMake city) (systemCandidates db4) db4.alerts a ha
  have h15 : ∀ a ∈ p1.1, a ∈ db5.alerts := fun a ha =>
    hs45 a (hs34 a (hs23 a (hs12 a ha)))
  have h25 : ∀ a ∈ p2.1, a ∈ db5.alerts := fun a ha => hs45 a (hs34 a (hs23 a ha))
  have h35 : ∀ a ∈ p3.1, a ∈ db5.alerts := fun a ha => hs45 a (hs34 a ha)
  have h45 : ∀ a ∈ p4.1, a ∈ db5.alerts := fun a ha => hs45 a ha
  have h55 : ∀ a ∈ p5.1, a ∈ db5.alerts := fun a ha => ha
  -- each family is a no-op on the final table
  have e1 : generate_risk_alerts db5 city now = (db5.alerts, 0) :=
    processFamily_noop_of_subset (fun _ => true) (riskDedup city) riskPost
      (riskMake city) (fun r _ _ => riskMake_matches city r)
      (riskCandidates db city now) db.alerts db5.alerts h15
  have e2 : generate_anomaly_alerts db5 city now = (db5.alerts, 0) :=
    processFamily_noop_of_subset (fun _ => true) (anomalyDedup city) (fun _ => true)
      (anomalyMake city) (fun an _ _ => anomalyMake_matches city an)
      (anomalyCandidates db1 city now) db1.alerts db5.alerts h25
  have e3 : generate_ml_anomaly_alerts db5 city = (db5.alerts, 0) := by
    unfold generate_ml_anomaly_alerts
    split_ifs with h
    · rfl
    · have hp3e : p3 = processFamily (fun _ => true) (mlDedup city) (fun _ => true)
          (mlMake city db2.mlConfidence) db2.mlAnomalies db2.alerts := by
        rw [hp3]
        unfold generate_ml_anomaly_alerts
        rw [if_neg h]
      exact processFamily_noop_of_subset _ _ _ _
        (fun m _ _ => mlMake_matches city db2.mlConfidence m)
        db2.mlAnomalies db2.alerts db5.alerts
        (fun a ha => h35 a (by rw [hp3e]; exact ha))
  have e4 : generate_forecast_alerts db5 city now = (db5.alerts, 0) :=
    processFamily_noop_of_subset forecastPre (forecastDedup city) (fun _ => true)
      (forecastMake city) (fun f _ _ => forecastMake_matches city f)
      (forecastCandidates db3 city now) db3.alerts db5.alerts h45
  have e5 : generate_system_alerts db5 city = (db5.alerts, 0) :=
    processFamily_noop_of_subset (fun _ => true) systemDedup (fun _ => true)
      (systemMake city) (fun s _ _ => systemMake_matches city s)
      (systemCandidates db4) db4.alerts db5.alerts h55
  have heta : ({ db5 with alerts := db5.alerts } : Db) = db5 := rfl
  have hcall2 : generate_all_alerts db5 city now = Except.ok
      { alertsCreated := 0, riskCount := 0, anomalyCount := 0, mlAnomalyCount := 0,
        forecastCount := 0, systemCount := 0, db := db5 } := by
    unfold generate_all_alerts
    rw [if_pos (show city ∈ db5.cities from hcity)]
    simp only [e1, heta, e2, e3, e4, e5]
  exact ⟨_, _, hcall1, hcall2, rfl, rfl, rfl, rfl, rfl, rfl⟩

/-- Concrete storage state for the C8 witness: one high risk score inside
the 6-hour window, an offline source, ml detection disabled by low
confidence, no pre-existing alerts. -/
def c8Db : Db :=
  { cities := ["vadodara"],
    riskScores := [⟨"r1", "vadodara", "overall", 0.8, "high", 98⟩],
    anomalies := [],
    mlAnomalies := [],
    mlConfidence := 0,
    forecasts := [],
    sources := [⟨"s1", "imd", "weather", false, 3⟩],
    alerts := [] }

/-- C8 witness: on the concrete state the second immediate run creates no
alert. -/
theorem generate_all_alerts_idempotent_witness :
    ∃ r1 r2, generate_all_alerts c8Db "vadodara" 100 = Except.ok r1 ∧
      generate_all_alerts r1.db "vadodara" 100 = Except.ok r2 ∧
      r2.alertsCreated = 0 := by
  obtain ⟨r1, r2, h1, h2, h3, _⟩ :=
    generate_all_alerts_idempotent c8Db "vadodara" 100 (by simp [c8Db])
  exact ⟨r1, r2, h1, h2, h3⟩

/-! ## TimeSeriesForecaster (app/modules/analytics/forecaster.py) -/

/-- The four environment metrics the forecaster loops over. -/
inductive EnvMetricName
  | aqi | pm25 | temperature | rainfall
deriving DecidableEq

/-- getattr(record, metric) for an environment metric. -/
def envMetricField : EnvMetricName → EnvironmentData → Option ℚ
  | .aqi => fun d => d.aqi
  | .pm25 => fun d => d.pm25
  | .temperature => fun d => d.temperature
  | .rainfall => fun d => d.rainfall

/-- The metric name as spelled in the source loop. -/
def envMetricStr : EnvMetricName → String
  | .aqi => "aqi"
  | .pm25 => "pm25"
  | .temperature => "temperature"
  | .rainfall => "rainfall"

/-- TimeSeriesForecaster._exponential_smoothing: fold the level through all
observations starting from the first, then emit the constant level for the
whole horizon. -/
def exponential_smoothing (values : List ℚ) (horizon : ℕ) (alpha : ℚ) : List ℚ :=
  match values with
  | [] => List.replicate horizon 0
  | v0 :: _ =>
    List.replicate horizon
      (values.foldl (fun l v => alpha * v + (1 - alpha) * l) v0)

/-- One forecast row assembled by the forecaster (the target_date field is
represented by its horizon in days). -/
structure ForecastOut where
  city : String
  zone : Option String
  metricType : String
  predictedValue : ℚ
  confidence : ℚ
  predictedCongestionLevel : Option String
  horizonDays : ℕ
deriving DecidableEq

/-- Variance of the last 14 observations (or all when fewer), as the
numpy var slice of the source. -/
def recentVariance (values : List ℚ) : ℚ :=
  if 14 ≤ values.length then populationVariance (values.drop (values.length - 14))
  else populationVariance values

/-- TimeSeriesForecaster.forecast_environment_metrics. -/
def forecast_environment_metrics (cityFound : Bool) (cityName : String)
    (historicalData : List EnvironmentData) (days : ℕ) : List ForecastOut :=
  if cityFound = false then []
  else if historicalData.length < 7 then []
  else
    [EnvMetricName.aqi, EnvMetricName.pm25, EnvMetricName.temperature,
      EnvMetricName.rainfall].bind (fun metric =>
      if (historicalData.filterMap (envMetricField metric)).length < 7 then []
      else
        (exponential_smoothing (historicalData.filterMap (envMetricField metric))
          days 0.3).enum.map (fun (p : ℕ × ℚ) =>
          { city := cityName, zone := none,
            metricType := "environment_" ++ envMetricStr metric,
            predictedValue := pyRound p.2 2,
            confidence := pyRound (max 0.5 (min 0.95
              (1 - recentVariance (historicalData.filterMap (envMetricField metric)) /
                (listMean (historicalData.filterMap (envMetricField metric)) + 1)))) 3,
            predictedCongestionLevel := none,
            horizonDays := p.1 + 1 }))

/-- TimeSeriesForecaster.forecast_traffic_congestion for one zone. -/
def forecast_traffic_congestion (cityFound : Bool) (cityName : String) (zone : String)
    (historicalData : List TrafficData) (days : ℕ) : List ForecastOut :=
  if cityFound = false then []
  else if historicalData.length < 7 then []
  else
    (exponential_smoothing (historicalData.map (fun (t : TrafficData) => t.densityPercent))
      days 0.3).enum.map (fun (p : ℕ × ℚ) =>
      { city := cityName, zone := some zone, metricType := "traffic_density",
        predictedValue := pyRound p.2 2,
        confidence := pyRound (max 0.5 (min 0.95
          (1 - recentVariance (historicalData.map
            (fun (t : TrafficData) => t.densityPercent)) / 100))) 3,
        predictedCongestionLevel := some
          (if p.2 < 40 then "low" else if p.2 < 70 then "medium" else "high"),
        horizonDays := p.1 + 1 })

/-- The three service metrics the forecaster loops over. -/
inductive ServiceMetricName
  | waterSupplyStress | wasteCollectionEff | powerOutageCount
deriving DecidableEq

/-- getattr(record, metric) for a service metric. -/
def serviceMetricField : ServiceMetricName → ServiceData → Option ℚ
  | .waterSupplyStress => fun d => d.waterSupplyStress
  | .wasteCollectionEff => fun d => d.wasteCollectionEff
  | .powerOutageCount => fun d => d.powerOutageCount

/-- The metric name as spelled in the source loop. -/
def serviceMetricStr : ServiceMetricName → String
  | .waterSupplyStress => "water_supply_stress"
  | .wasteCollectionEff => "waste_collection_eff"
  | .powerOutageCount => "power_outage_count"

/-- TimeSeriesForecaster.forecast_service_stress. -/
def forecast_service_stress (cityFound : Bool) (cityName : String)
    (historicalData : List ServiceData) (days : ℕ) : List ForecastOut :=
  if cityFound = false then []
  else if historicalData.length < 7 then []
  else
    [ServiceMetricName.waterSupplyStress, ServiceMetricName.wasteCollectionEff,
      ServiceMetricName.powerOutageCount].bind (fun metric =>
      if (historicalData.filterMap (serviceMetricField metric)).length < 7 then []
      else
        (exponential_smoothing (historicalData.filterMap (serviceMetricField metric))
          days 0.3).enum.map (fun (p : ℕ × ℚ) =>
          { city := cityName, zone := none,
            metricType := "service_" ++ serviceMetricStr metric,
            predictedValue := pyRound p.2 2,
            confidence := pyRound (max 0.5 (min 0.95
              (1 - recentVariance (historicalData.filterMap (serviceMetricField metric)) /
                (if 0 < listMean (historicalData.filterMap (serviceMetricField metric))
                  then listMean (historicalData.filterMap (serviceMetricField metric))
                  else 1)))) 3,
            predictedCongestionLevel := none,
            horizonDays := p.1 + 1 }))

/-- C10: every metric_type the TimeSeriesForecaster can emit lies outside
the keys of FORECAST_THRESHOLDS, and generate_forecast_alerts creates no
alert over a forecasts table whose metric types all lack thresholds; so no
forecast produced by the TimeSeriesForecaster ever raises a forecast
alert, whatever its predicted value. -/
theorem forecaster_metric_types_never_alert :
    (∀ cf cn hist days row, row ∈ forecast_environment_metrics cf cn hist days →
      FORECAST_THRESHOLDS row.metricType = none) ∧
    (∀ cf cn zone hist days row, row ∈ forecast_traffic_congestion cf cn zone hist days →
      FORECAST_THRESHOLDS row.metricType = none) ∧
    (∀ cf cn hist days row, row ∈ forecast_service_stress cf cn hist days →
      FORECAST_THRESHOLDS row.metricType = none) ∧
    (∀ db city now, (∀ f ∈ db.forecasts, FORECAST_THRESHOLDS f.metricType = none) →
      generate_forecast_alerts db city now = (db.alerts, 0)) := by
  refine ⟨?_, ?_, ?_, ?_⟩
  · intro cf cn hist days row hm
    unfold forecast_environment_metrics at hm
    split_ifs at hm with h1 h2
    · simp at hm
    · simp at hm
    · obtain ⟨metric, hmem, hrow⟩ := List.mem_bind.mp hm
      split at hrow
      · simp at hrow
      · obtain ⟨p, _, rfl⟩ := List.mem_map.mp hrow
        cases metric <;> rfl
  · intro cf cn zone hist days row hm
    unfold forecast_traffic_congestion at hm
    split_ifs at hm with h1 h2
    · simp at hm
    · simp at hm
    · obtain ⟨p, _, rfl⟩ := List.mem_map.mp hm
      rfl
  · intro cf cn hist days row hm
    unfold forecast_service_stress at hm
    split_ifs at hm with h1 h2
    · simp at hm
    · simp at hm
    · obtain ⟨metric, hmem, hrow⟩ := List.mem_bind.mp hm
      split at hrow
      · simp at hrow
      · obtain ⟨p, _, rfl⟩ := List.mem_map.mp hrow
        cases metric <;> rfl
  · intro db city now hnone
    unfold generate_forecast_alerts
    apply processFamily_noop
    intro c hc hpre _
    exfalso
    have hcf : c ∈ db.forecasts := by
      have hmem := (mem_sortBy).mp hc
      exact (List.mem_filter.mp hmem).1
    have h0 := hnone c hcf
    unfold forecastPre at hpre
    rw [h0] at hpre
    simp at hpre

/-- Storage state for the C10 witness: one forecaster-produced forecast
record with a huge predicted AQI value. -/
def c10Db : Db :=
  { cities := ["surat"],
    riskScores := [], anomalies := [], mlAnomalies := [], mlConfidence := 0,
    forecasts := [⟨"f1", "surat", "environment_aqi", 10, 450, 0.9⟩],
    sources := [], alerts := [] }

/-- C10 witness: the forecast family creates nothing for an
environment_aqi forecast however high the prediction. -/
theorem forecaster_metric_types_never_alert_witness :
    generate_forecast_alerts c10Db "surat" 0 = (c10Db.alerts, 0) := by
  have h := forecaster_metric_types_never_alert.2.2.2 c10Db "surat" 0
  apply h
  intro f hf
  simp only [c10Db, List.mem_singleton] at hf
  subst hf
  rfl

end UrbanCore
